import Mathlib

/-!
Verification development for the foursquare-mcp repository.

Shallow embedding of the token lifecycle of the server:
the Token Store (`src/token.ts`, class `TokenManager`), the Session
Provider (`src/api.ts`, class `FoursquareAPI`), and the OAuth callback
handler of the Authorization Flow Controller (`src/auth.ts`,
function `authenticate`).

Modelling conventions:
* The token file is a single local file; its content is modelled by
  `FileContent`: the file is absent, present but rejected by
  `JSON.parse` (`unparseable`), or present and holding a parsed JSON
  value.  The string encoding and decoding performed by the external
  `JSON.stringify` and `JSON.parse` builtins is kept at the level of
  the JSON value tree; what the repository's own code contributes (the
  object it builds, the fields it reads, the branches it takes on
  errors) is translated directly.
* Machine numbers (`Date.now()` milliseconds, `expires_in` seconds)
  are modelled as `Int`; in the source they are JS numbers that stay
  far below 2^53, where integer arithmetic is exact.
* Fallible async operations return `Except`: a thrown JS exception is
  an `Except.error` value propagating to the caller.
* Network calls (`fetch`) are external collaborators; their outcome is
  passed in as an explicit oracle parameter.
-/

namespace FoursquareMcp

/-- JSON value trees, as produced by `JSON.parse` on the token file and
consumed by `JSON.stringify` in `TokenManager.saveToken`. -/
inductive Json where
  | null
  | jbool (b : Bool)
  | num (n : Int)
  | str (s : String)
  | arr (elems : List Json)
  | obj (fields : List (String × Json))

/-- Lookup of an object field by key (first occurrence; the encoder below
emits every key at most once). -/
def lookupField : List (String × Json) → String → Option Json
  | [], _ => none
  | (k, v) :: rest, key => if k = key then some v else lookupField rest key

/-- Property access `j.key` on a parsed JSON value: `none` models the JS
value `undefined` (absent field or non-object receiver). -/
def Json.lookup : Json → String → Option Json
  | .obj fields, key => lookupField fields key
  | _, _ => none

/-- JS truthiness of the result of a property access: `undefined`, `null`,
`false`, `0` and `""` are falsy, everything else is truthy. -/
def jsTruthy : Option Json → Bool
  | none => false
  | some .null => false
  | some (.jbool b) => b
  | some (.num n) => n != 0
  | some (.str s) => s != ""
  | some (.arr _) => true
  | some (.obj _) => true

/-- Credential Record, interface `TokenInfo` of `src/token.ts`:
`access_token` (required), `created_at` (milliseconds since epoch,
`Date.now()`), optional `expires_in` (seconds). -/
structure TokenInfo where
  access_token : String
  created_at : Int
  expires_in : Option Int := none
deriving Repr, DecidableEq

/-- Serialization of a `TokenInfo` as written by
`JSON.stringify(token, null, 2)` in `TokenManager.saveToken`: an object
with the record's own enumerable fields (`expires_in` only when the
record carries one; `JSON.stringify` drops `undefined` fields). -/
def tokenInfoToJson (t : TokenInfo) : Json :=
  .obj ([("access_token", Json.str t.access_token),
         ("created_at", Json.num t.created_at)] ++
    (match t.expires_in with
     | some e => [("expires_in", Json.num e)]
     | none => []))

/-- Typed view of a parsed JSON value as a `TokenInfo` (the unchecked
`as TokenInfo` cast in `loadToken`, made explicit as the reader's view of
the three fields). -/
def decodeTokenInfo (j : Json) : Option TokenInfo :=
  match j.lookup "access_token", j.lookup "created_at" with
  | some (.str a), some (.num c) =>
    match j.lookup "expires_in" with
    | none => some ⟨a, c, none⟩
    | some (.num e) => some ⟨a, c, some e⟩
    | some _ => none
  | _, _ => none

/-- Observable content of the token file at `getTokenPath()`:
absent (readFile fails with ENOENT), present but rejected by
`JSON.parse` (empty, truncated or otherwise corrupt text), or present
and parsing to a JSON value. -/
inductive FileContent where
  | absent
  | unparseable
  | json (j : Json)

/-- Failure of a Token Store read: the file exists but `JSON.parse`
throws (the `SyntaxError` rethrown by `loadToken`, since its code is not
`ENOENT`). -/
inductive LoadError where
  | parseError
deriving Repr, DecidableEq

/-- Method `TokenManager.loadToken`: `ENOENT` is converted to `null`
(here `Except.ok none`); any other failure — in particular a
`JSON.parse` failure on an existing file — is rethrown. -/
def loadToken : FileContent → Except LoadError (Option Json)
  | .absent => .ok none
  | .unparseable => .error .parseError
  | .json j => .ok (some j)

/-- Method `TokenManager.saveToken`: overwrites the token file with the
serialized record, regardless of the previous content (last writer
wins). -/
def saveToken (t : TokenInfo) (_fs : FileContent) : FileContent :=
  .json (tokenInfoToJson t)

/-- File states observable by a concurrent reader while `saveToken`
runs, in order.  `saveToken` writes with a plain `fs.writeFile`, which
opens the file with `O_TRUNC` and then writes the serialized text: a
reader can observe the old content before the write starts, a truncated
or partially written text (not valid JSON) while the write is in
progress, and the new record once the write completes.  There is no
write-to-temporary-then-rename step in the source. -/
def saveTokenStates (t : TokenInfo) (fs : FileContent) : List FileContent :=
  [fs, .unparseable, saveToken t fs]

/-- Expiry check of `TokenManager.isTokenValid` on the parsed JSON
value: the comparison runs only under the JS-truthiness guard
`token.expires_in && token.created_at`; inside the guard it computes
`expiresAt = created_at + expires_in * 1000` and returns `false` iff
`Date.now() > expiresAt`.  (The non-numeric arm of the inner match is
unreachable for files written by `saveToken`, whose two fields are
always numbers; no claim depends on it.) -/
def isTokenValidJson (j : Json) (now : Int) : Bool :=
  if jsTruthy (j.lookup "expires_in") && jsTruthy (j.lookup "created_at") then
    match j.lookup "expires_in", j.lookup "created_at" with
    | some (.num e), some (.num c) => decide (now ≤ c + e * 1000)
    | _, _ => true
  else
    true

/-- Method `TokenManager.isTokenValid`: loads the record (propagating a
parse failure), returns `false` when no record exists, otherwise runs
the local expiry check at the current clock value `now`. -/
def isTokenValid (fs : FileContent) (now : Int) : Except LoadError Bool :=
  match loadToken fs with
  | .error e => .error e
  | .ok none => .ok false
  | .ok (some j) => .ok (isTokenValidJson j now)

/-! Field-lookup lemmas for serialized records. -/

/-- Lookup of `access_token` on a serialized record. -/
theorem lookup_access_token (t : TokenInfo) :
    (tokenInfoToJson t).lookup "access_token" = some (Json.str t.access_token) := by
  cases h : t.expires_in <;>
    simp [tokenInfoToJson, Json.lookup, lookupField, h]

/-- Lookup of `created_at` on a serialized record. -/
theorem lookup_created_at (t : TokenInfo) :
    (tokenInfoToJson t).lookup "created_at" = some (Json.num t.created_at) := by
  cases h : t.expires_in <;>
    simp [tokenInfoToJson, Json.lookup, lookupField, h]

/-- Lookup of `expires_in` on a serialized record. -/
theorem lookup_expires_in (t : TokenInfo) :
    (tokenInfoToJson t).lookup "expires_in" = t.expires_in.map Json.num := by
  cases h : t.expires_in <;>
    simp [tokenInfoToJson, Json.lookup, lookupField, h]

/-- Decoding inverts serialization. -/
theorem decode_tokenInfoToJson (t : TokenInfo) :
    decodeTokenInfo (tokenInfoToJson t) = some t := by
  cases t with
  | mk a c e =>
    cases e <;>
      simp [decodeTokenInfo, lookup_access_token, lookup_created_at,
        lookup_expires_in, Option.map]

/-! Claims about the Token Store. -/

/-- C6: `loadToken` returns the stored record when the file exists and
parses, returns absent (`none`, not an error and no exception) when the
file does not exist, and fails with the storage-corrupt (parse) error
when the file exists but is not valid serialized data, rather than
silently discarding the corrupt content. -/
theorem loadToken_cases (j : Json) :
    loadToken (FileContent.json j) = .ok (some j) ∧
    loadToken FileContent.absent = .ok none ∧
    loadToken FileContent.unparseable = .error .parseError :=
  ⟨rfl, rfl, rfl⟩

/-- C8: for every valid Credential Record `r`, `saveToken r` followed
immediately by `loadToken` returns a record equal to `r`: the load
succeeds with the serialized JSON value, and reading its fields (the
typed view every caller uses) gives back exactly `r`. -/
theorem saveToken_loadToken_roundtrip (t : TokenInfo) (fs : FileContent) :
    loadToken (saveToken t fs) = .ok (some (tokenInfoToJson t)) ∧
    decodeTokenInfo (tokenInfoToJson t) = some t :=
  ⟨rfl, decode_tokenInfoToJson t⟩

/-- C3 counterexample: a reader observing the token file while
`saveToken` is in progress can see a state that is neither absent nor
parseable.  `saveToken` writes in place with `fs.writeFile` (truncate
then write), so the truncated, unparseable file is among the observable
states of the save and `loadToken` fails on it; it is present (not
absent) yet not parseable, refuting the claim that a half-written state
is never visible. -/
theorem saveToken_midwrite_observable :
    FileContent.unparseable ∈
      saveTokenStates ⟨"tok", 1000, none⟩ FileContent.absent ∧
    loadToken FileContent.unparseable = .error .parseError ∧
    FileContent.unparseable ≠ FileContent.absent :=
  ⟨List.mem_cons_of_mem _ (List.mem_cons_self _ _), rfl,
    fun h => FileContent.noConfusion h⟩

/-- C3 amended: after `saveToken` completes, the record is wholly
present and parseable and replaces any previous record (last writer
wins); but because the write is an in-place `fs.writeFile` rather than
write-then-rename, a truncated unparseable state is observable while
the save is in progress. -/
theorem saveToken_final_state (t : TokenInfo) (fs : FileContent) :
    (saveTokenStates t fs).getLast? = some (saveToken t fs) ∧
    loadToken (saveToken t fs) = .ok (some (tokenInfoToJson t)) ∧
    FileContent.unparseable ∈ saveTokenStates t fs :=
  ⟨rfl, rfl, List.mem_cons_of_mem _ (List.mem_cons_self _ _)⟩

/-- C5 counterexample: a record with `expires_in = 0` is present in the
file and the current time strictly exceeds `created_at + 0 * 1000`, so
the claim requires `isTokenValid` to return `false`; the code returns
`true`, because the truthiness guard `token.expires_in &&
token.created_at` skips the comparison when `expires_in` is `0`. -/
theorem isTokenValid_zero_expires_in_counterexample :
    isTokenValid
      (FileContent.json (tokenInfoToJson ⟨"x", 5, some 0⟩)) 1000000 =
      .ok true ∧
    (1000000 : Int) > 5 + 0 * 1000 := by
  constructor
  · simp [isTokenValid, loadToken, isTokenValidJson,
      lookup_expires_in, lookup_created_at, jsTruthy]
  · decide

/-- C5 amended: `isTokenValid` returns false when no record exists;
when a record exists with `expiresIn` present and nonzero and
`createdAt` nonzero, it returns false exactly when
`now > createdAt + expiresIn * 1000`; in every other case (including
`expiresIn` absent, `expiresIn = 0`, or `createdAt = 0`, for
arbitrarily old `createdAt`) it returns true. -/
theorem isTokenValid_amended (t : TokenInfo) (now : Int) :
    isTokenValid FileContent.absent now = .ok false ∧
    (∀ e, t.expires_in = some e → e ≠ 0 → t.created_at ≠ 0 →
      isTokenValid (FileContent.json (tokenInfoToJson t)) now =
        .ok (decide (now ≤ t.created_at + e * 1000))) ∧
    ((t.expires_in = none ∨ t.expires_in = some 0 ∨ t.created_at = 0) →
      isTokenValid (FileContent.json (tokenInfoToJson t)) now = .ok true) := by
  refine ⟨rfl, ?_, ?_⟩
  · intro e he hene hc
    simp [isTokenValid, loadToken, isTokenValidJson,
      lookup_expires_in, lookup_created_at, jsTruthy, he, hene, hc]
  · rintro (he | he | hc)
    · simp [isTokenValid, loadToken, isTokenValidJson,
        lookup_expires_in, lookup_created_at, jsTruthy, he]
    · simp [isTokenValid, loadToken, isTokenValidJson,
        lookup_expires_in, lookup_created_at, jsTruthy, he]
    · cases he : t.expires_in <;>
        simp [isTokenValid, loadToken, isTokenValidJson,
          lookup_expires_in, lookup_created_at, jsTruthy, he, hc]

/-- C5 amended witness: a concrete expired record (`createdAt` old,
`expiresIn = 10` seconds, both nonzero) on which the amended claim
evaluates to false. -/
theorem isTokenValid_amended_witness :
    ((⟨"x", 1000, some 10⟩ : TokenInfo).expires_in = some 10) ∧
    (10 : Int) ≠ 0 ∧ ((⟨"x", 1000, some 10⟩ : TokenInfo).created_at ≠ 0) ∧
    isTokenValid
      (FileContent.json (tokenInfoToJson ⟨"x", 1000, some 10⟩)) 20000 =
      .ok false := by
  refine ⟨rfl, by decide, by decide, ?_⟩
  have h := (isTokenValid_amended ⟨"x", 1000, some 10⟩ 20000).2.1 10 rfl
    (by decide) (by decide)
  simpa using h

/-- C9: a stored record whose `expires_in` equals `0` (or whose
`created_at` equals `0`) is reported valid by `isTokenValid` regardless
of the current time: the expiry comparison only runs when both fields
are truthy, so a zero lifetime behaves as never-expires. -/
theorem isTokenValid_zero_fields (t : TokenInfo) (now : Int)
    (h : t.expires_in = some 0 ∨ t.created_at = 0) :
    isTokenValid (FileContent.json (tokenInfoToJson t)) now = .ok true := by
  rcases h with he | hc
  · simp [isTokenValid, loadToken, isTokenValidJson,
      lookup_expires_in, lookup_created_at, jsTruthy, he]
  · cases he : t.expires_in <;>
      simp [isTokenValid, loadToken, isTokenValidJson,
        lookup_expires_in, lookup_created_at, jsTruthy, he, hc]

/-- C9 witness: concrete records with `expires_in = 0` (resp.
`created_at = 0`) evaluated at a large clock value. -/
theorem isTokenValid_zero_fields_witness :
    ((⟨"a", 5, some 0⟩ : TokenInfo).expires_in = some 0 ∨
      (⟨"a", 5, some 0⟩ : TokenInfo).created_at = 0) ∧
    isTokenValid
      (FileContent.json (tokenInfoToJson ⟨"a", 5, some 0⟩)) 999999999 =
      .ok true :=
  ⟨Or.inl rfl,
    isTokenValid_zero_fields ⟨"a", 5, some 0⟩ 999999999 (Or.inl rfl)⟩

/-! Session Provider: class `FoursquareAPI` of `src/api.ts`. -/

/-- Mutable state of a `FoursquareAPI` instance: the cached
`accessToken` field, initially `null` (`none` models both JS `null` and
`undefined`). -/
structure FoursquareAPI where
  accessToken : Option String
deriving Repr, DecidableEq

/-- Failure of `FoursquareAPI.setToken`: the store held no record (the
thrown "token not found, authenticate first" error, the spec's
`NotAuthenticatedError`), or the store read itself failed. -/
inductive SetTokenError where
  | notAuthenticated
  | storage (e : LoadError)
deriving Repr, DecidableEq

/-- JS truthiness of the nullable string field `accessToken`: `null`,
`undefined` and the empty string are falsy. -/
def optStrTruthy : Option String → Bool
  | none => false
  | some s => s != ""

/-- Value of `tokenInfo.access_token` read off the parsed JSON: the
string when the field is a string, `none` (JS `undefined`) when the
field is absent.  (A non-string field would be carried through as-is by
JS; the store only ever writes a string there, and no claim depends on
that corner.) -/
def jsonAccessToken (j : Json) : Option String :=
  match j.lookup "access_token" with
  | some (.str s) => some s
  | _ => none

/-- String interpolated into the `Bearer` header by
`` `Bearer ${this.accessToken}` ``: the cached string itself, or the
text "undefined" when the field is undefined. -/
def bearerOf : Option String → String
  | some s => s
  | none => "undefined"

/-- Method `FoursquareAPI.setToken`: a truthy explicit token is cached
directly with no store read; otherwise the Token Store is read, a
missing record raises the not-authenticated error, and a present record
has its `access_token` field cached.  (An explicit empty string is
falsy in the `if (token)` guard and falls through to the store path.) -/
def setToken (token : Option String) (fs : FileContent) :
    Except SetTokenError FoursquareAPI :=
  if optStrTruthy token then
    .ok ⟨token⟩
  else
    match loadToken fs with
    | .error e => .error (.storage e)
    | .ok none => .error .notAuthenticated
    | .ok (some j) => .ok ⟨jsonAccessToken j⟩

/-- Authentication-relevant outcome of one `getUserCheckins` call: the
instance state after the call, the bearer string sent in the
`Authorization` header, and whether the Token Store was read. -/
structure AuthUse where
  api : FoursquareAPI
  bearer : String
  storeRead : Bool
deriving Repr, DecidableEq

/-- Token-resolution prefix of `FoursquareAPI.getUserCheckins`: when the
cached `accessToken` is falsy it calls `setToken()` (a Token Store
read, propagating its failures); it then sends the request with
`Bearer` plus the cached token.  The network call itself is an external
collaborator and not part of the resolution. -/
def getUserCheckinsAuth (api : FoursquareAPI) (fs : FileContent) :
    Except SetTokenError AuthUse :=
  if optStrTruthy api.accessToken then
    .ok ⟨api, bearerOf api.accessToken, false⟩
  else
    match setToken none fs with
    | .error e => .error e
    | .ok api2 => .ok ⟨api2, bearerOf api2.accessToken, true⟩

/-- Outcome of the probe `fetch` in `checkAuth`, given the bearer string
sent: an HTTP response with `ok` true, a response with `ok` false, or a
thrown transport error. -/
inductive ProbeOutcome where
  | accepted
  | rejected
  | transportError
deriving Repr, DecidableEq

/-- Boolean produced by the guarded probe region of `checkAuth`:
`response.ok` for a response, `false` for a caught transport error. -/
def probeResult : ProbeOutcome → Bool
  | .accepted => true
  | .rejected => false
  | .transportError => false

/-- Method `FoursquareAPI.checkAuth`: with a falsy cached token it first
reads the Token Store — outside the try block, so a store read failure
propagates — returning `false` when no record exists, caching the
record's `access_token` otherwise; it then probes the API inside a
try/catch that converts a transport error to `false`.  The result
triple is (instance state after the call, returned boolean, whether the
store was read). -/
def checkAuth (api : FoursquareAPI) (fs : FileContent)
    (probe : String → ProbeOutcome) :
    Except LoadError (FoursquareAPI × Bool × Bool) :=
  if optStrTruthy api.accessToken then
    .ok (api, probeResult (probe (bearerOf api.accessToken)), false)
  else
    match loadToken fs with
    | .error e => .error e
    | .ok none => .ok (api, false, true)
    | .ok (some j) =>
      .ok (⟨jsonAccessToken j⟩,
        probeResult (probe (bearerOf (jsonAccessToken j))), true)

/-- Token resolution as the spec words it: explicit token first, then
an environment-supplied token, then the Token Store, else the
not-authenticated failure.  Stated for comparison with `setToken`,
which is the resolution the source actually performs. -/
def resolveTokenSpec (explicitToken envToken storedToken : Option String) :
    Except SetTokenError String :=
  match explicitToken with
  | some t => .ok t
  | none =>
    match envToken with
    | some v => .ok v
    | none =>
      match storedToken with
      | some s => .ok s
      | none => .error .notAuthenticated

/-! Claims about the Session Provider. -/

/-- C1: divergence between the documented resolution and the code.  The
README and the `check-auth-status` display logic document an
environment-token level (`FOURSQUARE_ACCESS_TOKEN`) that takes
precedence over the stored file, but no resolution code reads that
variable: `setToken` consults only its explicit argument and the Token
Store.  At the state "no explicit token, environment token V set,
stored token S": the documented rule resolves V, while the code
resolves S from the file. -/
theorem setToken_ignores_env_token :
    resolveTokenSpec none (some "V") (some "S") = .ok "V" ∧
    setToken none (FileContent.json (tokenInfoToJson ⟨"S", 0, none⟩)) =
      .ok ⟨some "S"⟩ ∧
    ("V" : String) ≠ "S" := by
  refine ⟨rfl, ?_, by decide⟩
  simp [setToken, optStrTruthy, loadToken, jsonAccessToken,
    lookup_access_token]

/-- C2 counterexample: with no cached token and a token file that exists
but does not parse, `checkAuth` propagates the storage error instead of
returning a boolean — the Token Store read happens outside the
try/catch that guards the probe. -/
theorem checkAuth_unparseable_throws :
    checkAuth ⟨none⟩ FileContent.unparseable (fun _ => .accepted) =
      .error .parseError := rfl

/-- C2 amended: whenever the cached token is truthy or the token file is
not in the exists-but-unparseable state, `checkAuth` returns a boolean
(never propagates an exception), and if the probe always throws a
transport error the returned boolean is `false`; only the unguarded
store read of an unparseable file propagates. -/
theorem checkAuth_amended (api : FoursquareAPI) (fs : FileContent)
    (probe : String → ProbeOutcome)
    (h : optStrTruthy api.accessToken = true ∨
      fs ≠ FileContent.unparseable) :
    (∃ st b r, checkAuth api fs probe = .ok (st, b, r)) ∧
    ((∀ s, probe s = .transportError) →
      ∃ st r, checkAuth api fs probe = .ok (st, false, r)) := by
  by_cases ht : optStrTruthy api.accessToken = true
  · constructor
    · exact ⟨api, probeResult (probe (bearerOf api.accessToken)), false,
        by simp [checkAuth, ht]⟩
    · intro hp
      exact ⟨api, false, by simp [checkAuth, ht, hp, probeResult]⟩
  · have hfs : fs ≠ FileContent.unparseable := h.resolve_left ht
    cases fs with
    | unparseable => exact absurd rfl hfs
    | absent =>
      constructor
      · exact ⟨api, false, true, by simp [checkAuth, ht, loadToken]⟩
      · intro _
        exact ⟨api, true, by simp [checkAuth, ht, loadToken]⟩
    | json j =>
      constructor
      · exact ⟨⟨jsonAccessToken j⟩,
          probeResult (probe (bearerOf (jsonAccessToken j))), true,
          by simp [checkAuth, ht, loadToken]⟩
      · intro hp
        exact ⟨⟨jsonAccessToken j⟩, true,
          by simp [checkAuth, ht, loadToken, hp, probeResult]⟩

/-- C2 amended witness: a concrete cached-token instance probed by an
always-throwing transport, evaluating to the boolean `false` rather
than an error. -/
theorem checkAuth_amended_witness :
    (optStrTruthy (some "T") = true ∨
      FileContent.absent ≠ FileContent.unparseable) ∧
    (∃ st r, checkAuth ⟨some "T"⟩ FileContent.absent
      (fun _ => .transportError) = .ok (st, false, r)) :=
  ⟨Or.inl rfl,
    (checkAuth_amended ⟨some "T"⟩ FileContent.absent
      (fun _ => .transportError) (Or.inl rfl)).2 (fun _ => rfl)⟩

/-- C10 counterexample: an instance whose `accessToken` field is
non-null but empty (`""`, reachable by `setToken` from a store record
with an empty `access_token`) fails the JS truthiness guard
`if (!this.accessToken)`, so the next `getUserCheckins` does read the
Token Store and its outcome depends on the file: with a stored record
it sends that record's token, with the file deleted it fails as
not-authenticated. -/
theorem cached_empty_token_rereads_store :
    ((⟨some ""⟩ : FoursquareAPI).accessToken ≠ none) ∧
    getUserCheckinsAuth ⟨some ""⟩
      (FileContent.json (tokenInfoToJson ⟨"S1", 0, none⟩)) =
      .ok ⟨⟨some "S1"⟩, "S1", true⟩ ∧
    getUserCheckinsAuth ⟨some ""⟩ FileContent.absent =
      .error .notAuthenticated := by
  refine ⟨by simp, ?_, ?_⟩
  · simp [getUserCheckinsAuth, optStrTruthy, setToken, loadToken,
      jsonAccessToken, lookup_access_token, bearerOf]
  · simp [getUserCheckinsAuth, optStrTruthy, setToken, loadToken]

/-- C10 amended: once the `accessToken` field holds a truthy (non-null,
non-empty) string — the guard the code actually uses — every subsequent
`getUserCheckins` and `checkAuth` uses the cached token, performs no
Token Store read, and is unaffected by deleting or replacing the token
file: the calls behave identically on any two file states and send the
cached bearer. -/
theorem cached_token_frame (api : FoursquareAPI) (tok : String)
    (probe : String → ProbeOutcome) (fs fs' : FileContent)
    (h : api.accessToken = some tok) (hne : tok ≠ "") :
    getUserCheckinsAuth api fs = .ok ⟨api, tok, false⟩ ∧
    checkAuth api fs probe = .ok (api, probeResult (probe tok), false) ∧
    getUserCheckinsAuth api fs = getUserCheckinsAuth api fs' ∧
    checkAuth api fs probe = checkAuth api fs' probe := by
  have ht : optStrTruthy (some tok) = true := by
    simp [optStrTruthy, hne]
  refine ⟨?_, ?_, ?_, ?_⟩ <;>
    simp [getUserCheckinsAuth, checkAuth, h, ht, bearerOf]

/-- C10 amended witness: a concrete instance caching the token "T",
evaluated against two different file states. -/
theorem cached_token_frame_witness :
    ((⟨some "T"⟩ : FoursquareAPI).accessToken = some "T") ∧
    ("T" : String) ≠ "" ∧
    getUserCheckinsAuth ⟨some "T"⟩ FileContent.absent =
      .ok ⟨⟨some "T"⟩, "T", false⟩ ∧
    getUserCheckinsAuth ⟨some "T"⟩ FileContent.absent =
      getUserCheckinsAuth ⟨some "T"⟩ FileContent.unparseable :=
  ⟨rfl, by decide,
    (cached_token_frame ⟨some "T"⟩ "T" (fun _ => .accepted)
      FileContent.absent FileContent.unparseable rfl (by decide)).1,
    (cached_token_frame ⟨some "T"⟩ "T" (fun _ => .accepted)
      FileContent.absent FileContent.unparseable rfl (by decide)).2.2.1⟩

/-! Authorization Flow Controller: the redirect-callback handler of
`authenticate` in `src/auth.ts`. -/

/-- Shape of the query string of one incoming request on the callback
endpoint, as the handler branches on it: a truthy `error` parameter
(checked first), neither `error` nor `code`, or a truthy `code`. -/
inductive CallbackQuery where
  | err (msg : String)
  | noCode
  | code (c : String)
deriving Repr, DecidableEq

/-- Outcome of the token-exchange POST for a given authorization code,
as the handler inspects the JSON body: an `error` field, a body without
an `access_token` field, or an access token.  The network transfer
itself is an external collaborator passed in as an oracle. -/
inductive ExchangeReply where
  | errField (msg : String)
  | noToken
  | token (tok : String)
deriving Repr, DecidableEq

/-- Settlement of the promise returned by `authenticate`: the rejection
raised for a provider `error` parameter, for a missing code, for an
`error` field in the exchange reply, for a reply without an access
token — or the resolution with the constructed Credential Record. -/
inductive FlowResult where
  | authError (msg : String)
  | missingCode
  | tokenExchangeError (msg : String)
  | noAccessTokenError
  | success (t : TokenInfo)
deriving Repr, DecidableEq

/-- State of one `authenticate` run: whether the listener still accepts
requests, whether a delayed `server.close()` has been scheduled (the
success branch closes via `setTimeout(..., 1000)`), the first
settlement of the promise if any, the Token Store file, and how many
times the callback handler has run to completion. -/
structure FlowState where
  listening : Bool
  closeScheduled : Bool
  settled : Option FlowResult
  store : FileContent
  completions : Nat

/-- Settling the promise: JS promise semantics — `resolve` / `reject`
calls after the first settlement are ignored. -/
def settle (r : FlowResult) (st : FlowState) : FlowState :=
  match st.settled with
  | some _ => st
  | none => { st with settled := some r }

/-- The callback handler processing one request, faithful to the branch
order of the source: if the listener is closed the request is not
processed; an `error` parameter renders the error page, closes the
listener immediately and rejects; a missing code does likewise; a code
is exchanged — an error field or a missing access token closes the
listener immediately and rejects (via the catch block), and a token
builds the Credential Record with `created_at = Date.now()`, saves it
to the Token Store, renders the success page, schedules the delayed
close (the listener stays open until the timer fires) and resolves. -/
def handleCallback (exchange : String → ExchangeReply) (now : Int)
    (q : CallbackQuery) (st : FlowState) : FlowState :=
  if st.listening then
    match q with
    | .err msg =>
      settle (.authError msg)
        { st with listening := false, completions := st.completions + 1 }
    | .noCode =>
      settle .missingCode
        { st with listening := false, completions := st.completions + 1 }
    | .code c =>
      match exchange c with
      | .errField msg =>
        settle (.tokenExchangeError msg)
          { st with listening := false, completions := st.completions + 1 }
      | .noToken =>
        settle .noAccessTokenError
          { st with listening := false, completions := st.completions + 1 }
      | .token tok =>
        settle (.success ⟨tok, now, none⟩)
          { st with
            store := saveToken ⟨tok, now, none⟩ st.store,
            closeScheduled := true,
            completions := st.completions + 1 }
  else
    st

/-- Events observable by one flow run after the listener is up: an
incoming request on the callback endpoint, or the firing of the delayed
close timer scheduled by the success branch. -/
inductive FlowEvent where
  | request (q : CallbackQuery)
  | closeTimerFires
deriving Repr, DecidableEq

/-- One event step of the flow. -/
def flowStep (exchange : String → ExchangeReply) (now : Int)
    (st : FlowState) : FlowEvent → FlowState
  | .request q => handleCallback exchange now q st
  | .closeTimerFires =>
    if st.closeScheduled then
      { st with listening := false, closeScheduled := false }
    else
      st

/-- A whole sequence of events processed in order. -/
def runFlow (exchange : String → ExchangeReply) (now : Int)
    (st : FlowState) (evs : List FlowEvent) : FlowState :=
  evs.foldl (flowStep exchange now) st

/-- Initial state of one run: listener up, no close scheduled, promise
pending, the token file in some starting state, no handler runs yet. -/
def flowStart (fs : FileContent) : FlowState :=
  ⟨true, false, none, fs, 0⟩

/-! Invariant lemmas for the flow model. -/

/-- Settlement is stable under `settle`. -/
theorem settle_settled_of_some (r x : FlowResult) (st : FlowState)
    (h : st.settled = some x) : (settle r st).settled = some x := by
  simp [settle, h]

/-- Settlement is stable under the callback handler. -/
theorem handleCallback_settled_of_some (exchange : String → ExchangeReply)
    (now : Int) (q : CallbackQuery) (st : FlowState) (x : FlowResult)
    (h : st.settled = some x) :
    (handleCallback exchange now q st).settled = some x := by
  by_cases hl : st.listening
  · cases q with
    | err msg => simp [handleCallback, hl, settle, h]
    | noCode => simp [handleCallback, hl, settle, h]
    | code c =>
      cases he : exchange c <;>
        simp [handleCallback, hl, he, settle, h]
  · simp [handleCallback, hl, h]

/-- Settlement is stable under one event step. -/
theorem flowStep_settled_of_some (exchange : String → ExchangeReply)
    (now : Int) (e : FlowEvent) (st : FlowState) (x : FlowResult)
    (h : st.settled = some x) :
    (flowStep exchange now st e).settled = some x := by
  cases e with
  | request q => exact handleCallback_settled_of_some _ _ _ _ _ h
  | closeTimerFires =>
    unfold flowStep
    by_cases hc : st.closeScheduled <;> simp [hc, h]

/-- Settlement is stable under any sequence of events. -/
theorem runFlow_settled_of_some (exchange : String → ExchangeReply)
    (now : Int) (evs : List FlowEvent) (st : FlowState) (x : FlowResult)
    (h : st.settled = some x) :
    (runFlow exchange now st evs).settled = some x := by
  induction evs generalizing st with
  | nil => exact h
  | cons e rest ih =>
    exact ih _ (flowStep_settled_of_some exchange now e st x h)

/-- A closed listener processes no request. -/
theorem handleCallback_closed (exchange : String → ExchangeReply)
    (now : Int) (q : CallbackQuery) (st : FlowState)
    (h : st.listening = false) :
    handleCallback exchange now q st = st := by
  simp [handleCallback, h]

/-- Once the listener is closed, no step reopens it or touches the
settlement, the store, or the completion count. -/
theorem flowStep_closed (exchange : String → ExchangeReply) (now : Int)
    (e : FlowEvent) (st : FlowState) (h : st.listening = false) :
    (flowStep exchange now st e).listening = false ∧
    (flowStep exchange now st e).settled = st.settled ∧
    (flowStep exchange now st e).store = st.store ∧
    (flowStep exchange now st e).completions = st.completions := by
  cases e with
  | request q => simp [flowStep, handleCallback_closed _ _ _ _ h, h]
  | closeTimerFires =>
    unfold flowStep
    by_cases hc : st.closeScheduled <;> simp [hc, h]

/-- Once the listener is closed, a whole event sequence changes none of
the listener flag, the settlement, the store, or the completion
count. -/
theorem runFlow_closed (exchange : String → ExchangeReply) (now : Int)
    (evs : List FlowEvent) (st : FlowState) (h : st.listening = false) :
    (runFlow exchange now st evs).listening = false ∧
    (runFlow exchange now st evs).settled = st.settled ∧
    (runFlow exchange now st evs).store = st.store ∧
    (runFlow exchange now st evs).completions = st.completions := by
  induction evs generalizing st with
  | nil => exact ⟨h, rfl, rfl, rfl⟩
  | cons e rest ih =>
    obtain ⟨h1, h2, h3, h4⟩ := flowStep_closed exchange now e st h
    obtain ⟨g1, g2, g3, g4⟩ := ih (flowStep exchange now st e) h1
    exact ⟨g1, g2.trans h2, g3.trans h3, g4.trans h4⟩

/-! Claims about the Authorization Flow Controller. -/

/-- C4 counterexample: the callback handler can run twice to completion
within one flow run.  After a successful exchange the source closes the
listener only via `setTimeout(() => server.close(), 1000)`, so the
listener is still open when a second callback arrives before the timer
fires: starting from a fresh run, two successful callbacks (codes "a"
then "b") both complete — the handler ran twice, the listener is still
open, the promise settled with the first record while the store was
overwritten with the second. -/
theorem callback_runs_twice :
    (runFlow (fun c => .token c) 7 (flowStart FileContent.absent)
      [.request (.code "a"), .request (.code "b")]).completions = 2 ∧
    (runFlow (fun c => .token c) 7 (flowStart FileContent.absent)
      [.request (.code "a"), .request (.code "b")]).listening = true ∧
    (runFlow (fun c => .token c) 7 (flowStart FileContent.absent)
      [.request (.code "a"), .request (.code "b")]).settled =
      some (.success ⟨"a", 7, none⟩) ∧
    (runFlow (fun c => .token c) 7 (flowStart FileContent.absent)
      [.request (.code "a"), .request (.code "b")]).store =
      FileContent.json (tokenInfoToJson ⟨"b", 7, none⟩) := by
  refine ⟨?_, ?_, ?_, ?_⟩ <;>
    simp [runFlow, flowStart, flowStep, handleCallback, settle, saveToken,
      List.foldl]

/-- C4 amended: within one run, the promise settles at most once (a
later resolve or reject never changes the first settlement); once the
listener is closed no further callback is processed and neither the
settlement nor the store nor the completion count changes; the error,
missing-code and failed-exchange branches close the listener
immediately; only the success branch leaves the listener open, with the
close deferred to the scheduled timer, so a second callback arriving
before that timer fires is still processed. -/
theorem callback_at_most_once_amended (exchange : String → ExchangeReply)
    (now : Int) (evs : List FlowEvent) (st : FlowState) :
    (∀ x, st.settled = some x →
      (runFlow exchange now st evs).settled = some x) ∧
    (st.listening = false →
      (runFlow exchange now st evs).listening = false ∧
      (runFlow exchange now st evs).settled = st.settled ∧
      (runFlow exchange now st evs).store = st.store ∧
      (runFlow exchange now st evs).completions = st.completions) ∧
    (∀ m, (handleCallback exchange now (.err m) st).listening = false) ∧
    (handleCallback exchange now .noCode st).listening = false ∧
    (∀ c m, exchange c = .errField m →
      (handleCallback exchange now (.code c) st).listening = false) ∧
    (∀ c, exchange c = .noToken →
      (handleCallback exchange now (.code c) st).listening = false) ∧
    (∀ c tok, st.listening = true → exchange c = .token tok →
      (handleCallback exchange now (.code c) st).listening = true ∧
      (handleCallback exchange now (.code c) st).closeScheduled = true) := by
  refine ⟨fun x h => runFlow_settled_of_some _ _ _ _ _ h,
    fun h => runFlow_closed _ _ _ _ h, ?_, ?_, ?_, ?_, ?_⟩
  · intro m
    by_cases hl : st.listening <;> simp [handleCallback, settle, hl]
    · cases st.settled <;> simp
  · by_cases hl : st.listening <;> simp [handleCallback, settle, hl]
    · cases st.settled <;> simp
  · intro c m he
    by_cases hl : st.listening <;>
      simp [handleCallback, settle, hl, he]
    · cases st.settled <;> simp
  · intro c he
    by_cases hl : st.listening <;>
      simp [handleCallback, settle, hl, he]
    · cases st.settled <;> simp
  · intro c tok hl he
    cases hs : st.settled <;>
      simp [handleCallback, settle, hl, he, hs]

/-- C4 amended witness: concrete flow states — after an error callback
the listener is closed and a trailing request changes nothing, and a
callback whose exchange fails with an error field likewise closes the
listener immediately. -/
theorem callback_at_most_once_amended_witness :
    ((flowStart FileContent.absent).listening = true) ∧
    (handleCallback (fun c => .token c) 7 (.err "access_denied")
      (flowStart FileContent.absent)).listening = false ∧
    (runFlow (fun c => .token c) 7
      (handleCallback (fun c => .token c) 7 (.err "access_denied")
        (flowStart FileContent.absent))
      [.request (.code "b")]).completions =
      (handleCallback (fun c => .token c) 7 (.err "access_denied")
        (flowStart FileContent.absent)).completions ∧
    ((fun _ : String => ExchangeReply.errField "bad") "a" =
      ExchangeReply.errField "bad") ∧
    (handleCallback (fun _ => .errField "bad") 7 (.code "a")
      (flowStart FileContent.absent)).listening = false ∧
    ((fun _ : String => ExchangeReply.noToken) "a" =
      ExchangeReply.noToken) ∧
    (handleCallback (fun _ => .noToken) 7 (.code "a")
      (flowStart FileContent.absent)).listening = false := by
  have h1 : (handleCallback (fun c => ExchangeReply.token c) 7
      (.err "access_denied") (flowStart FileContent.absent)).listening
      = false :=
    (callback_at_most_once_amended (fun c => ExchangeReply.token c) 7 []
      (flowStart FileContent.absent)).2.2.1 "access_denied"
  refine ⟨rfl, h1,
    ((callback_at_most_once_amended (fun c => ExchangeReply.token c) 7
      [.request (.code "b")]
      (handleCallback (fun c => ExchangeReply.token c) 7
        (.err "access_denied") (flowStart FileContent.absent))).2.1
      h1).2.2.2, rfl, ?_, rfl, ?_⟩
  · exact (callback_at_most_once_amended
      (fun _ => ExchangeReply.errField "bad") 7 []
      (flowStart FileContent.absent)).2.2.2.2.1 "a" "bad" rfl
  · exact (callback_at_most_once_amended
      (fun _ => ExchangeReply.noToken) 7 []
      (flowStart FileContent.absent)).2.2.2.2.2.1 "a" rfl

/-- C7: a redirect callback carrying an `error` parameter rejects the
flow with the provider's error message and writes nothing to the Token
Store, and a callback carrying neither `error` nor `code` rejects with
the missing-code error and writes nothing: in both branches the store
is unchanged, whatever its prior state. -/
theorem error_branches_leave_store (exchange : String → ExchangeReply)
    (now : Int) (st : FlowState) (m : String) :
    (handleCallback exchange now (.err m) st).store = st.store ∧
    (handleCallback exchange now .noCode st).store = st.store ∧
    (st.listening = true → st.settled = none →
      (handleCallback exchange now (.err m) st).settled =
        some (.authError m) ∧
      (handleCallback exchange now .noCode st).settled =
        some .missingCode) := by
  refine ⟨?_, ?_, ?_⟩
  · by_cases hl : st.listening <;>
      cases hs : st.settled <;>
        simp [handleCallback, settle, hl, hs]
  · by_cases hl : st.listening <;>
      cases hs : st.settled <;>
        simp [handleCallback, settle, hl, hs]
  · intro hl hs
    simp [handleCallback, settle, hl, hs]

/-- C7 witness: a fresh run receiving `error=access_denied` (resp. a
query with neither code nor error) over an absent store file. -/
theorem error_branches_leave_store_witness :
    ((flowStart FileContent.absent).listening = true) ∧
    ((flowStart FileContent.absent).settled = none) ∧
    (handleCallback (fun c => .token c) 7 (.err "access_denied")
      (flowStart FileContent.absent)).store = FileContent.absent ∧
    (handleCallback (fun c => .token c) 7 (.err "access_denied")
      (flowStart FileContent.absent)).settled =
      some (.authError "access_denied") ∧
    (handleCallback (fun c => .token c) 7 .noCode
      (flowStart FileContent.absent)).settled = some .missingCode := by
  have h := error_branches_leave_store (fun c => ExchangeReply.token c) 7
    (flowStart FileContent.absent) "access_denied"
  exact ⟨rfl, rfl, h.1, (h.2.2 rfl rfl).1, (h.2.2 rfl rfl).2⟩

end FoursquareMcp
